import Mathlib

/-!
Verification of the face-verification decision pipeline in `src/server.js`.

The service decides whether two photographs (a reference fetched by URL and
an uploaded selfie) depict the same person.  We embed the decision core:

* the configuration constants (`server.js` lines 42-45);
* the per-image extraction pipeline `extractFaceData` (lines 95-142):
  quality gate, detector invocation, single-face enforcement;
* the similarity scorer `compareFaces` (lines 147-160);
* the `/verify` orchestrator (lines 176-220), with the external
  collaborators (URL fetch + decode, buffer decode, face detector) passed
  in as oracles so that detector invocations can be counted;
* a small interleaving model of the lazy model loader `loadModels`
  (lines 58-73) for the concurrency claim.

Numbers: JavaScript numbers are modelled as exact arithmetic — embedding
entries and box coordinates as rationals, and the Euclidean distance (which
involves `Math.sqrt`) as a real number.  `Number(x.toFixed(k))` is modelled
as rounding half-up to `k` decimal places.
-/

namespace FaceVerify

/-! ### Configuration (`server.js` lines 42-45), read-only for the process -/

def FACE_MATCH_THRESHOLD : ℚ := 0.48

def MIN_FACE_WIDTH : ℚ := 120

def MIN_IMAGE_SIZE : ℕ := 300

def INPUT_SIZE : ℕ := 512

/-! ### Data model -/

/-- A decoded image: an opaque pixel buffer with integer dimensions. -/
structure Image where
  width : ℕ
  height : ℕ
deriving DecidableEq

/-- A face bounding box in pixel space (face-api.js boxes carry float
coordinates, modelled as rationals). -/
structure Box where
  x : ℚ
  y : ℚ
  width : ℚ
  height : ℚ
deriving DecidableEq

/-- One face detection: a bounding box plus the face descriptor (the
fixed-length embedding produced by the recognition net). -/
structure Detection where
  box : Box
  descriptor : List ℚ
deriving DecidableEq

/-- Outcome of `extractFaceData` on one image: `{success: true, descriptor}`
or `{success: false, msg}` in the source. -/
inductive ExtractionResult where
  | success (descriptor : List ℚ)
  | failure (msg : String)
deriving DecidableEq

/-! ### Single-face enforcement (`server.js` lines 119-141)

The source checks, in order: `detections.length === 0` → "No face
detected"; `detections.length > 1` → "Multiple faces detected"; then
`detections[0].detection.box.width < MIN_FACE_WIDTH` → "Face too small.
Move closer to camera."; otherwise success with `detections[0].descriptor`. -/

def enforceSingleFace : List Detection → ExtractionResult
  | [] => .failure "No face detected"
  | [d] =>
      if d.box.width < MIN_FACE_WIDTH then
        .failure "Face too small. Move closer to camera."
      else
        .success d.descriptor
  | _ :: _ :: _ => .failure "Multiple faces detected"

/-! ### Per-image extraction (`server.js` lines 95-142)

`detect` is the external face-detector capability
(`faceapi.detectAllFaces(...).withFaceLandmarks().withFaceDescriptors()`);
a thrown model/detection error is `Except.error`.  The second component of
the result counts how many times the detector was invoked for this image,
so the quality-gate short-circuit (lines 99-104, which returns before the
detector is called) is observable. -/

def extractFaceData (detect : Image → Except String (List Detection))
    (image : Image) : Except String ExtractionResult × ℕ :=
  if image.width < MIN_IMAGE_SIZE ∨ image.height < MIN_IMAGE_SIZE then
    (.ok (.failure "Image too low quality. Use better camera."), 0)
  else
    match detect image with
    | .error e => (.error e, 1)
    | .ok detections => (.ok (enforceSingleFace detections), 1)

/-! ### Similarity scorer (`server.js` lines 147-160) -/

/-- Sum of squared component-wise differences, as in face-api.js
`euclideanDistance` (which requires equal lengths and throws otherwise;
all callers here pass equal-length descriptors from the same model). -/
def distSq (d1 d2 : List ℚ) : ℚ :=
  ((d1.zip d2).map fun p => (p.1 - p.2) ^ 2).sum

/-- The face-api.js `euclideanDistance` helper: the L2 norm of the element-wise
difference of the two descriptors. -/
noncomputable def euclideanDistance (d1 d2 : List ℚ) : ℝ :=
  Real.sqrt ((distSq d1 d2 : ℚ) : ℝ)

/-- The JSON result object built by `compareFaces`. -/
structure VerificationResult where
  verified : Bool
  distance : ℝ
  matchPercentage : ℝ
  threshold : ℝ

/-- Rounding to `k` decimal places, as `Number(x.toFixed(k))` does. -/
noncomputable def roundTo (k : ℕ) (x : ℝ) : ℝ :=
  ((round (x * 10 ^ k) : ℤ) : ℝ) / 10 ^ k

open Classical in
/-- The scorer `compareFaces(d1, d2)` (`server.js` lines 147-160):
distance, `(1 - distance) * 100` clamped to `[0, 100]` via
`Math.max(0, Math.min(100, ·))`, strict threshold comparison on the
unrounded distance, and rounding of the reported fields. -/
noncomputable def compareFaces (d1 d2 : List ℚ) : VerificationResult :=
  let distance : ℝ := euclideanDistance d1 d2
  let matchPercentage : ℝ := max 0 (min 100 ((1 - distance) * 100))
  { verified := distance < (FACE_MATCH_THRESHOLD : ℝ)
    distance := roundTo 4 distance
    matchPercentage := roundTo 2 matchPercentage
    threshold := (FACE_MATCH_THRESHOLD : ℝ) }

/-! ### The `/verify` endpoint (`server.js` lines 176-220)

The request carries `referenceImageUrl` (from the body) and the uploaded
selfie file; missing either is a 400.  `loadImageFromUrl` (fetch + decode,
lines 80-85) and `loadImageFromBuffer` (decode, lines 88-90) are oracles
whose `Except.error` models a thrown infrastructure fault; any throw is
caught by the handler's single `catch` (lines 214-219) and answered with
status 500 and the fixed message "Face verification failed".  The outcome
records the detector invocation counts for the reference image and the
selfie image. -/

structure VerifyRequest where
  referenceImageUrl : Option String
  selfieFile : Option (List ℕ)

inductive ResponseBody where
  | msg (s : String)
  | result (r : VerificationResult)

structure HttpResponse where
  status : ℕ
  body : ResponseBody

structure VerifyOutcome where
  response : HttpResponse
  refDetectCalls : ℕ
  selfieDetectCalls : ℕ

noncomputable def verifyHandler
    (loadImageFromUrl : String → Except String Image)
    (loadImageFromBuffer : List ℕ → Except String Image)
    (detect : Image → Except String (List Detection))
    (req : VerifyRequest) : VerifyOutcome :=
  match req.referenceImageUrl, req.selfieFile with
  | some url, some buf =>
    match loadImageFromUrl url with
    | .error _ => ⟨⟨500, .msg "Face verification failed"⟩, 0, 0⟩
    | .ok referenceImg =>
      match extractFaceData detect referenceImg with
      | (.error _, n) => ⟨⟨500, .msg "Face verification failed"⟩, n, 0⟩
      | (.ok (.failure m), n) =>
          ⟨⟨400, .msg ("Reference image error: " ++ m)⟩, n, 0⟩
      | (.ok (.success refDescriptor), n) =>
        match loadImageFromBuffer buf with
        | .error _ => ⟨⟨500, .msg "Face verification failed"⟩, n, 0⟩
        | .ok selfieImg =>
          match extractFaceData detect selfieImg with
          | (.error _, n2) => ⟨⟨500, .msg "Face verification failed"⟩, n, n2⟩
          | (.ok (.failure m), n2) =>
              ⟨⟨400, .msg ("Selfie error: " ++ m)⟩, n, n2⟩
          | (.ok (.success selfieDescriptor), n2) =>
              ⟨⟨200, .result (compareFaces refDescriptor selfieDescriptor)⟩, n, n2⟩
  | _, _ => ⟨⟨400, .msg "referenceImageUrl and selfie file required"⟩, 0, 0⟩

/-! ### Lazy model loading (`server.js` lines 58-73)

`loadModels` checks the module-level boolean `modelsLoaded` on entry
(line 61) and returns immediately when it is set; otherwise it awaits the
three `loadFromDisk` calls (an asynchronous gap during which other
requests may run) and only then sets `modelsLoaded = true` (line 71).
We model one caller as a three-phase process:

* `entering`: about to execute the `if (modelsLoaded) return;` check;
* `awaitingLoad`: past the check, inside the awaited disk loads
  (`loadsStarted` was incremented when the loads began);
* `finished`: returned from `loadModels` (setting the flag on the way out
  when the loads were run).

A schedule interleaves the atomic steps of two callers; `loadsStarted`
counts how many times the disk-load sequence was started. -/

structure LoadState where
  modelsLoaded : Bool
  loadsStarted : ℕ
deriving DecidableEq

inductive CallerPhase where
  | entering
  | awaitingLoad
  | finished
deriving DecidableEq

def callerStep : LoadState → CallerPhase → LoadState × CallerPhase
  | s, .entering =>
      if s.modelsLoaded then (s, .finished)
      else ({ s with loadsStarted := s.loadsStarted + 1 }, .awaitingLoad)
  | s, .awaitingLoad => ({ s with modelsLoaded := true }, .finished)
  | s, .finished => (s, .finished)

structure LoaderSys where
  load : LoadState
  c1 : CallerPhase
  c2 : CallerPhase
deriving DecidableEq

/-- Scheduling token: `true` steps caller 1, `false` steps caller 2. -/
def sysStep (s : LoaderSys) (who : Bool) : LoaderSys :=
  if who then
    let (l, p) := callerStep s.load s.c1
    ⟨l, p, s.c2⟩
  else
    let (l, p) := callerStep s.load s.c2
    ⟨l, s.c1, p⟩

def runSched (s : LoaderSys) : List Bool → LoaderSys
  | [] => s
  | w :: ws => runSched (sysStep s w) ws

/-- Process start: models not loaded, both requests about to call
`loadModels` for the first time. -/
def initLoaderSys : LoaderSys := ⟨⟨false, 0⟩, .entering, .entering⟩

/-! ### Basic lemmas about the embedded operations -/

lemma distSq_cons (a b : ℚ) (as bs : List ℚ) :
    distSq (a :: as) (b :: bs) = (a - b) ^ 2 + distSq as bs := by
  simp [distSq]

lemma distSq_nonneg (d1 d2 : List ℚ) : 0 ≤ distSq d1 d2 := by
  unfold distSq
  apply List.sum_nonneg
  intro x hx
  obtain ⟨p, -, rfl⟩ := List.mem_map.1 hx
  positivity

lemma distSq_comm (d1 d2 : List ℚ) : distSq d1 d2 = distSq d2 d1 := by
  induction d1 generalizing d2 with
  | nil => cases d2 <;> simp [distSq]
  | cons a as ih =>
    cases d2 with
    | nil => simp [distSq]
    | cons b bs =>
      simp only [distSq_cons, ih]
      ring_nf

lemma euclideanDistance_nonneg (d1 d2 : List ℚ) :
    0 ≤ euclideanDistance d1 d2 :=
  Real.sqrt_nonneg _

lemma euclideanDistance_comm (d1 d2 : List ℚ) :
    euclideanDistance d1 d2 = euclideanDistance d2 d1 := by
  unfold euclideanDistance
  rw [distSq_comm]

/-- Evaluating `roundTo` at a value that is exactly representable with `k`
decimal places returns the value unchanged. -/
lemma roundTo_intMul (k : ℕ) (x : ℝ) (n : ℤ) (h : x * 10 ^ k = (n : ℝ)) :
    roundTo k x = x := by
  have h10 : ((10 : ℝ) ^ k) ≠ 0 := by positivity
  unfold roundTo
  rw [h, round_intCast, div_eq_iff h10]
  exact h.symm

lemma roundTo_mono (k : ℕ) {x y : ℝ} (h : x ≤ y) :
    roundTo k x ≤ roundTo k y := by
  have h10 : (0 : ℝ) < 10 ^ k := by positivity
  have hm : x * 10 ^ k ≤ y * 10 ^ k :=
    mul_le_mul_of_nonneg_right h h10.le
  have hr : round (x * 10 ^ k) ≤ round (y * 10 ^ k) := by
    rw [round_eq, round_eq]
    exact Int.floor_mono (by linarith)
  unfold roundTo
  exact (div_le_div_iff_of_pos_right h10).2 (by exact_mod_cast hr)

/-! ### C1 -/

/-- C1. For equal-length embeddings the scorer returns
`verified = true` exactly when the unrounded Euclidean distance is
strictly below `FACE_MATCH_THRESHOLD` (0.48); a distance exactly equal to
the threshold yields `verified = false`.  The decision is computed from
the unrounded distance, so the 4-decimal rounding of the reported
`distance` field never changes it. -/
theorem verified_iff_unrounded_distance_lt_threshold (d1 d2 : List ℚ)
    (h : d1.length = d2.length) :
    ((compareFaces d1 d2).verified = true ↔
      euclideanDistance d1 d2 < (FACE_MATCH_THRESHOLD : ℝ)) ∧
    (euclideanDistance d1 d2 = (FACE_MATCH_THRESHOLD : ℝ) →
      (compareFaces d1 d2).verified = false) := by
  constructor
  · simp [compareFaces]
  · intro he
    simp [compareFaces, he]

theorem verified_iff_unrounded_distance_lt_threshold_witness :
    ([0] : List ℚ).length = ([1/2] : List ℚ).length ∧
    ((((compareFaces [0] [1/2]).verified = true ↔
        euclideanDistance [0] [1/2] < (FACE_MATCH_THRESHOLD : ℝ)) ∧
      (euclideanDistance [0] [1/2] = (FACE_MATCH_THRESHOLD : ℝ) →
        (compareFaces [0] [1/2]).verified = false))) :=
  ⟨rfl, verified_iff_unrounded_distance_lt_threshold [0] [1/2] rfl⟩

/-! ### C2 -/

/-- C2. The Single-Face Enforcer classifies with first match winning:
an empty detection list yields no-face; more than one detection yields
multiple-faces regardless of box sizes; a single detection with box width
strictly below `MIN_FACE_WIDTH` (120) yields face-too-small; otherwise the
single detection is accepted, in particular when the box width equals
`MIN_FACE_WIDTH` exactly (the boundary is inclusive on the pass side). -/
theorem enforceSingleFace_classification :
    (enforceSingleFace [] = .failure "No face detected") ∧
    (∀ ds : List Detection, 1 < ds.length →
        enforceSingleFace ds = .failure "Multiple faces detected") ∧
    (∀ d : Detection, d.box.width < MIN_FACE_WIDTH →
        enforceSingleFace [d] = .failure "Face too small. Move closer to camera.") ∧
    (∀ d : Detection, MIN_FACE_WIDTH ≤ d.box.width →
        enforceSingleFace [d] = .success d.descriptor) ∧
    (∀ d : Detection, d.box.width = MIN_FACE_WIDTH →
        enforceSingleFace [d] = .success d.descriptor) := by
  refine ⟨rfl, ?_, ?_, ?_, ?_⟩
  · intro ds hds
    match ds with
    | [] => simp at hds
    | [d] => simp at hds
    | a :: b :: rest => rfl
  · intro d hd
    simp [enforceSingleFace, hd]
  · intro d hd
    simp [enforceSingleFace, not_lt.2 hd]
  · intro d hd
    simp [enforceSingleFace, hd]

theorem enforceSingleFace_classification_witness :
    (1 < ([⟨⟨0, 0, 130, 130⟩, [1]⟩, ⟨⟨0, 0, 130, 130⟩, [2]⟩] : List Detection).length ∧
      enforceSingleFace [⟨⟨0, 0, 130, 130⟩, [1]⟩, ⟨⟨0, 0, 130, 130⟩, [2]⟩] =
        .failure "Multiple faces detected") ∧
    ((⟨⟨0, 0, 119, 130⟩, [1]⟩ : Detection).box.width < MIN_FACE_WIDTH ∧
      enforceSingleFace [⟨⟨0, 0, 119, 130⟩, [1]⟩] =
        .failure "Face too small. Move closer to camera.") ∧
    ((⟨⟨0, 0, 120, 130⟩, [1]⟩ : Detection).box.width = MIN_FACE_WIDTH ∧
      enforceSingleFace [⟨⟨0, 0, 120, 130⟩, [1]⟩] = .success [1]) :=
  ⟨⟨by norm_num, enforceSingleFace_classification.2.1 _ (by norm_num)⟩,
   ⟨by norm_num [MIN_FACE_WIDTH],
    enforceSingleFace_classification.2.2.1 _ (by norm_num [MIN_FACE_WIDTH])⟩,
   ⟨by norm_num [MIN_FACE_WIDTH],
    enforceSingleFace_classification.2.2.2.2 _ (by norm_num [MIN_FACE_WIDTH])⟩⟩

/-! ### C3 -/

lemma enforceSingleFace_ne_quality (ds : List Detection) :
    enforceSingleFace ds ≠ .failure "Image too low quality. Use better camera." := by
  match ds with
  | [] => simp [enforceSingleFace]
  | [d] =>
    by_cases hd : d.box.width < MIN_FACE_WIDTH <;>
      simp [enforceSingleFace, hd]
  | a :: b :: rest => simp [enforceSingleFace]

/-- C3. The extraction pipeline returns the too-low-quality failure
exactly when `image.width < MIN_IMAGE_SIZE` (300) or
`image.height < MIN_IMAGE_SIZE` — no aspect-ratio check — and in that case
the face detector is never invoked for that image (zero detector calls). -/
theorem extractFaceData_quality_gate
    (detect : Image → Except String (List Detection)) (image : Image) :
    ((extractFaceData detect image).1 =
        .ok (.failure "Image too low quality. Use better camera.") ↔
      image.width < MIN_IMAGE_SIZE ∨ image.height < MIN_IMAGE_SIZE) ∧
    (image.width < MIN_IMAGE_SIZE ∨ image.height < MIN_IMAGE_SIZE →
      (extractFaceData detect image).2 = 0) := by
  unfold extractFaceData
  split
  · rename_i hg
    simp [hg]
  · rename_i hg
    constructor
    · constructor
      · intro he
        cases hd : detect image with
        | error e =>
          rw [hd] at he
          simp at he
        | ok ds =>
          rw [hd] at he
          simp at he
          exact absurd he (enforceSingleFace_ne_quality ds)
      · intro hc
        exact absurd hc hg
    · intro hc
      exact absurd hc hg

theorem extractFaceData_quality_gate_witness :
    ((200 : ℕ) < MIN_IMAGE_SIZE ∨ (400 : ℕ) < MIN_IMAGE_SIZE) ∧
    (extractFaceData (fun _ => .ok []) ⟨200, 400⟩).2 = 0 ∧
    (extractFaceData (fun _ => .ok []) ⟨200, 400⟩).1 =
      .ok (.failure "Image too low quality. Use better camera.") := by
  have h : ((⟨200, 400⟩ : Image)).width < MIN_IMAGE_SIZE ∨
      ((⟨200, 400⟩ : Image)).height < MIN_IMAGE_SIZE :=
    Or.inl (by norm_num [MIN_IMAGE_SIZE])
  exact ⟨h, (extractFaceData_quality_gate (fun _ => .ok []) ⟨200, 400⟩).2 h,
    ((extractFaceData_quality_gate (fun _ => .ok []) ⟨200, 400⟩).1).2 h⟩

/-! ### Projection lemmas for `compareFaces` -/

lemma compareFaces_matchPercentage (d1 d2 : List ℚ) :
    (compareFaces d1 d2).matchPercentage =
      roundTo 2 (max 0 (min 100 ((1 - euclideanDistance d1 d2) * 100))) :=
  rfl

lemma compareFaces_distance (d1 d2 : List ℚ) :
    (compareFaces d1 d2).distance = roundTo 4 (euclideanDistance d1 d2) :=
  rfl

lemma compareFaces_threshold (d1 d2 : List ℚ) :
    (compareFaces d1 d2).threshold = (FACE_MATCH_THRESHOLD : ℝ) :=
  rfl

lemma compareFaces_verified_iff (d1 d2 : List ℚ) :
    (compareFaces d1 d2).verified = true ↔
      euclideanDistance d1 d2 < (FACE_MATCH_THRESHOLD : ℝ) := by
  simp [compareFaces]

/-! ### C4 -/

/-- C4. The scorer computes `matchPercentage` as `(1 - distance) * 100`
clamped to `[0, 100]`: distance 0 yields 100 (and `verified = true`, the
threshold being positive), any distance ≥ 1 yields 0, and the reported
percentage is never negative (and never above 100). -/
theorem matchPercentage_clamped_linear (d1 d2 : List ℚ)
    (h : d1.length = d2.length) :
    (euclideanDistance d1 d2 = 0 →
      (compareFaces d1 d2).matchPercentage = 100 ∧
        (compareFaces d1 d2).verified = true) ∧
    (1 ≤ euclideanDistance d1 d2 →
      (compareFaces d1 d2).matchPercentage = 0) ∧
    0 ≤ (compareFaces d1 d2).matchPercentage ∧
    (compareFaces d1 d2).matchPercentage ≤ 100 := by
  have r0 : roundTo 2 (0 : ℝ) = 0 := roundTo_intMul 2 0 0 (by norm_num)
  have r100 : roundTo 2 (100 : ℝ) = 100 := roundTo_intMul 2 100 10000 (by norm_num)
  refine ⟨?_, ?_, ?_, ?_⟩
  · intro he
    constructor
    · rw [compareFaces_matchPercentage, he]
      norm_num [r100]
    · rw [compareFaces_verified_iff, he]
      norm_num [FACE_MATCH_THRESHOLD]
  · intro h1
    have hx : (1 - euclideanDistance d1 d2) * 100 ≤ 0 := by nlinarith
    rw [compareFaces_matchPercentage,
      min_eq_right (by linarith : (1 - euclideanDistance d1 d2) * 100 ≤ 100),
      max_eq_left hx, r0]
  · rw [compareFaces_matchPercentage]
    have hmono := roundTo_mono 2
      (le_max_left 0 (min 100 ((1 - euclideanDistance d1 d2) * 100)))
    rw [r0] at hmono
    exact hmono
  · rw [compareFaces_matchPercentage]
    have hmono := roundTo_mono 2
      (max_le (by norm_num : (0 : ℝ) ≤ 100)
        (min_le_left 100 ((1 - euclideanDistance d1 d2) * 100)))
    rw [r100] at hmono
    exact hmono

theorem matchPercentage_clamped_linear_witness :
    ([0] : List ℚ).length = ([0] : List ℚ).length ∧
    euclideanDistance [0] [0] = 0 ∧
    (compareFaces [0] [0]).matchPercentage = 100 ∧
    (compareFaces [0] [0]).verified = true ∧
    (1 : ℝ) ≤ euclideanDistance [0] [2] ∧
    (compareFaces [0] [2]).matchPercentage = 0 ∧
    0 ≤ (compareFaces [0] [0]).matchPercentage := by
  have e0 : euclideanDistance [0] [0] = 0 := by
    simp [euclideanDistance, distSq]
  have e2 : euclideanDistance [0] [2] = 2 := by
    rw [euclideanDistance, show ((distSq [0] [2] : ℚ) : ℝ) = 2 ^ 2 by
      norm_num [distSq], Real.sqrt_sq (by norm_num)]
  have h00 := matchPercentage_clamped_linear [0] [0] rfl
  have h02 := matchPercentage_clamped_linear [0] [2] rfl
  exact ⟨rfl, e0, (h00.1 e0).1, (h00.1 e0).2, by rw [e2]; norm_num,
    h02.2.1 (by rw [e2]; norm_num), h00.2.2.1⟩

/-! ### C7 -/

/-- C7. Scoring is symmetric: the reported distance is the same for
both argument orders, and consequently the whole `VerificationResult`
coincides. -/
theorem compareFaces_symmetric (a b : List ℚ) :
    (compareFaces a b).distance = (compareFaces b a).distance ∧
    compareFaces a b = compareFaces b a := by
  have hd := euclideanDistance_comm a b
  constructor
  · rw [compareFaces_distance, compareFaces_distance, hd]
  · unfold compareFaces
    rw [hd]

/-! ### C10 -/

/-- C10. For equal-length embeddings, a `verified = true` result can
never display a low match percentage: the reported `matchPercentage` is at
least 52 and at most 100, because the (always non-negative) distance must
be below 0.48 and the clamp keeps the value within `[0, 100]`. -/
theorem verified_matchPercentage_between (d1 d2 : List ℚ)
    (h : d1.length = d2.length)
    (hv : (compareFaces d1 d2).verified = true) :
    52 ≤ (compareFaces d1 d2).matchPercentage ∧
    (compareFaces d1 d2).matchPercentage ≤ 100 := by
  have hd : euclideanDistance d1 d2 < (FACE_MATCH_THRESHOLD : ℝ) :=
    (compareFaces_verified_iff d1 d2).1 hv
  have hd' : euclideanDistance d1 d2 < 12 / 25 := by
    rw [show ((FACE_MATCH_THRESHOLD : ℚ) : ℝ) = 12 / 25 by
      norm_num [FACE_MATCH_THRESHOLD]] at hd
    exact hd
  have r52 : roundTo 2 (52 : ℝ) = 52 := roundTo_intMul 2 52 5200 (by norm_num)
  have r100 : roundTo 2 (100 : ℝ) = 100 := roundTo_intMul 2 100 10000 (by norm_num)
  constructor
  · rw [compareFaces_matchPercentage]
    have hmono := roundTo_mono 2
      (le_trans
        (le_min (by norm_num : (52 : ℝ) ≤ 100)
          (by linarith : (52 : ℝ) ≤ (1 - euclideanDistance d1 d2) * 100))
        (le_max_right 0 (min 100 ((1 - euclideanDistance d1 d2) * 100))))
    rw [r52] at hmono
    exact hmono
  · rw [compareFaces_matchPercentage]
    have hmono := roundTo_mono 2
      (max_le (by norm_num : (0 : ℝ) ≤ 100)
        (min_le_left 100 ((1 - euclideanDistance d1 d2) * 100)))
    rw [r100] at hmono
    exact hmono

theorem verified_matchPercentage_between_witness :
    ([0] : List ℚ).length = ([0] : List ℚ).length ∧
    (compareFaces [0] [0]).verified = true ∧
    52 ≤ (compareFaces [0] [0]).matchPercentage ∧
    (compareFaces [0] [0]).matchPercentage ≤ 100 := by
  have hv : (compareFaces [0] [0]).verified = true := by
    rw [compareFaces_verified_iff]
    simp [euclideanDistance, distSq]
    norm_num [FACE_MATCH_THRESHOLD]
  have hm := verified_matchPercentage_between [0] [0] rfl hv
  exact ⟨rfl, hv, hm.1, hm.2⟩

/-! ### C6 -/

lemma distSq_singleton (a b : ℚ) : distSq [a] [b] = (a - b) ^ 2 := by
  simp [distSq]

lemma threshold_cast : ((FACE_MATCH_THRESHOLD : ℚ) : ℝ) = 0.48 := by
  norm_num [FACE_MATCH_THRESHOLD]

/-- C6. A pair at Euclidean distance exactly 0.30 is answered with
`verified = true`, `matchPercentage = 70.00` and `threshold = 0.48`; a
pair at distance exactly 0.60 with `verified = false` and
`matchPercentage = 40.00`. -/
theorem scenario_distance_results (d1 d2 e1 e2 : List ℚ) :
    (euclideanDistance d1 d2 = 0.30 →
      (compareFaces d1 d2).verified = true ∧
      (compareFaces d1 d2).matchPercentage = 70 ∧
      (compareFaces d1 d2).threshold = 0.48) ∧
    (euclideanDistance e1 e2 = 0.60 →
      (compareFaces e1 e2).verified = false ∧
      (compareFaces e1 e2).matchPercentage = 40) := by
  constructor
  · intro he
    refine ⟨?_, ?_, ?_⟩
    · rw [compareFaces_verified_iff, he, threshold_cast]
      norm_num
    · rw [compareFaces_matchPercentage, he,
        show (1 - (0.30 : ℝ)) * 100 = 70 by norm_num,
        min_eq_right (by norm_num : (70 : ℝ) ≤ 100),
        max_eq_right (by norm_num : (0 : ℝ) ≤ 70),
        roundTo_intMul 2 70 7000 (by norm_num)]
    · rw [compareFaces_threshold, threshold_cast]
  · intro he
    constructor
    · refine Bool.eq_false_iff.2 fun hv => ?_
      rw [compareFaces_verified_iff, he, threshold_cast] at hv
      norm_num at hv
    · rw [compareFaces_matchPercentage, he,
        show (1 - (0.60 : ℝ)) * 100 = 40 by norm_num,
        min_eq_right (by norm_num : (40 : ℝ) ≤ 100),
        max_eq_right (by norm_num : (0 : ℝ) ≤ 40),
        roundTo_intMul 2 40 4000 (by norm_num)]

theorem scenario_distance_results_witness :
    euclideanDistance [0] [3/10] = 0.30 ∧
    ((compareFaces [0] [3/10]).verified = true ∧
      (compareFaces [0] [3/10]).matchPercentage = 70 ∧
      (compareFaces [0] [3/10]).threshold = 0.48) ∧
    euclideanDistance [0] [3/5] = 0.60 ∧
    ((compareFaces [0] [3/5]).verified = false ∧
      (compareFaces [0] [3/5]).matchPercentage = 40) := by
  have e03 : euclideanDistance [0] [3/10] = 0.30 := by
    rw [euclideanDistance, distSq_singleton,
      show (((0 - 3/10 : ℚ) ^ 2 : ℚ) : ℝ) = (0.30 : ℝ) ^ 2 by norm_num,
      Real.sqrt_sq (by norm_num)]
  have e06 : euclideanDistance [0] [3/5] = 0.60 := by
    rw [euclideanDistance, distSq_singleton,
      show (((0 - 3/5 : ℚ) ^ 2 : ℚ) : ℝ) = (0.60 : ℝ) ^ 2 by norm_num,
      Real.sqrt_sq (by norm_num)]
  exact ⟨e03, (scenario_distance_results [0] [3/10] [0] [3/5]).1 e03,
    e06, (scenario_distance_results [0] [3/10] [0] [3/5]).2 e06⟩

/-! ### C5 -/

/-- C5 (amended). The orchestrator runs the reference extraction
first; on a user-facing failure it answers 400 with the label
"Reference image error: " (the code capitalizes the label) prefixed to the
reason, the selfie is never decoded or processed (the outcome is
independent of the selfie decoder and the selfie detector call count is
zero); only when the reference succeeds is the selfie extracted, its
failures answered as "Selfie error: " plus the reason; only when both
succeed is the similarity scorer invoked, its result being the response. -/
theorem verify_short_circuit
    (loadUrl : String → Except String Image)
    (loadBuf : List ℕ → Except String Image)
    (detect : Image → Except String (List Detection))
    (url : String) (buf : List ℕ) :
    (∀ refImg m n, loadUrl url = .ok refImg →
      extractFaceData detect refImg = (.ok (.failure m), n) →
      (∀ loadBuf' : List ℕ → Except String Image,
        verifyHandler loadUrl loadBuf' detect ⟨some url, some buf⟩ =
          verifyHandler loadUrl loadBuf detect ⟨some url, some buf⟩) ∧
      verifyHandler loadUrl loadBuf detect ⟨some url, some buf⟩ =
        ⟨⟨400, .msg ("Reference image error: " ++ m)⟩, n, 0⟩) ∧
    (∀ refImg rd n selfieImg m n2, loadUrl url = .ok refImg →
      extractFaceData detect refImg = (.ok (.success rd), n) →
      loadBuf buf = .ok selfieImg →
      extractFaceData detect selfieImg = (.ok (.failure m), n2) →
      verifyHandler loadUrl loadBuf detect ⟨some url, some buf⟩ =
        ⟨⟨400, .msg ("Selfie error: " ++ m)⟩, n, n2⟩) ∧
    (∀ refImg rd n selfieImg sd n2, loadUrl url = .ok refImg →
      extractFaceData detect refImg = (.ok (.success rd), n) →
      loadBuf buf = .ok selfieImg →
      extractFaceData detect selfieImg = (.ok (.success sd), n2) →
      verifyHandler loadUrl loadBuf detect ⟨some url, some buf⟩ =
        ⟨⟨200, .result (compareFaces rd sd)⟩, n, n2⟩) := by
  refine ⟨?_, ?_, ?_⟩
  · intro refImg m n hu hx
    constructor
    · intro loadBuf'
      simp [verifyHandler, hu, hx]
    · simp [verifyHandler, hu, hx]
  · intro refImg rd n selfieImg m n2 hu hx hb hs
    simp [verifyHandler, hu, hx, hb, hs]
  · intro refImg rd n selfieImg sd n2 hu hx hb hs
    simp [verifyHandler, hu, hx, hb, hs]

theorem verify_short_circuit_witness :
    (fun _ : String => (.ok ⟨400, 400⟩ : Except String Image)) "u" = .ok ⟨400, 400⟩ ∧
    extractFaceData (fun _ => .ok []) ⟨400, 400⟩ =
      (.ok (.failure "No face detected"), 1) ∧
    (∀ loadBuf' : List ℕ → Except String Image,
      verifyHandler (fun _ => .ok ⟨400, 400⟩) loadBuf' (fun _ => .ok [])
          ⟨some "u", some []⟩ =
        verifyHandler (fun _ => .ok ⟨400, 400⟩) (fun _ => .ok ⟨400, 400⟩)
          (fun _ => .ok []) ⟨some "u", some []⟩) ∧
    verifyHandler (fun _ => .ok ⟨400, 400⟩) (fun _ => .ok ⟨400, 400⟩)
        (fun _ => .ok []) ⟨some "u", some []⟩ =
      ⟨⟨400, .msg ("Reference image error: " ++ "No face detected")⟩, 1, 0⟩ := by
  have hx : extractFaceData (fun _ => (.ok [] : Except String (List Detection)))
      ⟨400, 400⟩ = (.ok (.failure "No face detected"), 1) := by
    simp [extractFaceData, MIN_IMAGE_SIZE, enforceSingleFace]
  have h := (verify_short_circuit (fun _ => .ok ⟨400, 400⟩)
    (fun _ => .ok ⟨400, 400⟩) (fun _ => .ok []) "u" []).1
    ⟨400, 400⟩ "No face detected" 1 rfl hx
  exact ⟨rfl, hx, h.1, h.2⟩

/-- C5 as literally stated is false on one point: the code labels the
failing side "Reference image error: " / "Selfie error: " with a capital
letter, not "reference image error: " / "selfie error: " as the spec
writes the tag. -/
theorem verify_label_case_counterexample :
    (verifyHandler (fun _ => .ok ⟨400, 400⟩) (fun _ => .ok ⟨400, 400⟩)
        (fun _ => .ok []) ⟨some "u", some []⟩).response.body =
      .msg "Reference image error: No face detected" ∧
    (verifyHandler (fun _ => .ok ⟨400, 400⟩) (fun _ => .ok ⟨400, 400⟩)
        (fun _ => .ok []) ⟨some "u", some []⟩).response.body ≠
      .msg "reference image error: No face detected" := by
  constructor <;>
    simp [verifyHandler, extractFaceData, MIN_IMAGE_SIZE, enforceSingleFace]

/-! ### C8 -/

/-- The four user-facing rejection reasons (plus their exact messages in
the source). -/
def userMsgs : List String :=
  ["Image too low quality. Use better camera.", "No face detected",
   "Multiple faces detected", "Face too small. Move closer to camera."]

lemma enforceSingleFace_failure_msg (ds : List Detection) (m : String)
    (h : enforceSingleFace ds = .failure m) : m ∈ userMsgs := by
  match ds with
  | [] =>
    simp [enforceSingleFace] at h
    simp [userMsgs, ← h]
  | [d] =>
    by_cases hd : d.box.width < MIN_FACE_WIDTH <;>
      simp [enforceSingleFace, hd] at h
    simp [userMsgs, ← h]
  | a :: b :: rest =>
    simp [enforceSingleFace] at h
    simp [userMsgs, ← h]

lemma extractFaceData_failure_msg
    (detect : Image → Except String (List Detection)) (image : Image)
    (m : String) (n : ℕ)
    (h : extractFaceData detect image = (.ok (.failure m), n)) :
    m ∈ userMsgs := by
  unfold extractFaceData at h
  split at h
  · simp only [Prod.mk.injEq, Except.ok.injEq, ExtractionResult.failure.injEq] at h
    simp [userMsgs, ← h.1]
  · cases hd : detect image with
    | error e =>
      rw [hd] at h
      simp at h
    | ok ds =>
      rw [hd] at h
      simp only [Prod.mk.injEq, Except.ok.injEq] at h
      exact enforceSingleFace_failure_msg ds m h.1

/-- Every response of the handler has one of four shapes: a 200 carrying a
scorer result, the 400 input-validation message, a 400 carrying a side
label plus one of the four user-facing reasons, or the opaque 500. -/
lemma verifyHandler_response_cases
    (loadUrl : String → Except String Image)
    (loadBuf : List ℕ → Except String Image)
    (detect : Image → Except String (List Detection))
    (req : VerifyRequest) :
    (∃ r, (verifyHandler loadUrl loadBuf detect req).response = ⟨200, .result r⟩) ∨
    (verifyHandler loadUrl loadBuf detect req).response =
      ⟨400, .msg "referenceImageUrl and selfie file required"⟩ ∨
    (∃ m, m ∈ userMsgs ∧
      ((verifyHandler loadUrl loadBuf detect req).response =
          ⟨400, .msg ("Reference image error: " ++ m)⟩ ∨
        (verifyHandler loadUrl loadBuf detect req).response =
          ⟨400, .msg ("Selfie error: " ++ m)⟩)) ∨
    (verifyHandler loadUrl loadBuf detect req).response =
      ⟨500, .msg "Face verification failed"⟩ := by
  obtain ⟨oUrl, oBuf⟩ := req
  match oUrl, oBuf with
  | none, _ =>
    right; left
    simp [verifyHandler]
  | some url, none =>
    right; left
    simp [verifyHandler]
  | some url, some buf =>
    cases hu : loadUrl url with
    | error e =>
      right; right; right
      simp [verifyHandler, hu]
    | ok refImg =>
      rcases hx : extractFaceData detect refImg with ⟨res, n⟩
      match res with
      | .error e =>
        right; right; right
        simp [verifyHandler, hu, hx]
      | .ok (.failure m) =>
        right; right; left
        exact ⟨m, extractFaceData_failure_msg detect refImg m n hx,
          Or.inl (by simp [verifyHandler, hu, hx])⟩
      | .ok (.success rd) =>
        cases hb : loadBuf buf with
        | error e =>
          right; right; right
          simp [verifyHandler, hu, hx, hb]
        | ok selfieImg =>
          rcases hs : extractFaceData detect selfieImg with ⟨res2, n2⟩
          match res2 with
          | .error e =>
            right; right; right
            simp [verifyHandler, hu, hx, hb, hs]
          | .ok (.failure m) =>
            right; right; left
            exact ⟨m, extractFaceData_failure_msg detect selfieImg m n2 hs,
              Or.inr (by simp [verifyHandler, hu, hx, hb, hs])⟩
          | .ok (.success sd) =>
            left
            exact ⟨compareFaces rd sd, by simp [verifyHandler, hu, hx, hb, hs]⟩

/-- When the quality gate passes, a thrown detector/model fault propagates
out of `extractFaceData` unchanged (to be caught only at the handler's
single catch). -/
lemma extractFaceData_detect_error
    (detect : Image → Except String (List Detection)) (image : Image)
    (e : String)
    (hg : ¬(image.width < MIN_IMAGE_SIZE ∨ image.height < MIN_IMAGE_SIZE))
    (hd : detect image = .error e) :
    extractFaceData detect image = (.error e, 1) := by
  unfold extractFaceData
  rw [if_neg hg, hd]

/-- C8. Infrastructure faults stay disjoint from the four user-facing
rejection reasons: a failed fetch of the reference URL, an undecodable
selfie image, and a model-invocation failure on either image (whenever the
detector is reached) are each answered with status 500 and the fixed
opaque message "Face verification failed", which leaks no internal detail
(it is independent of the fault text); every 500 response carries exactly
that message and never a labeled rejection; and every 400 response carries
either the input-validation message or a side label plus one of the four
human-readable user-facing reasons. -/
theorem infra_faults_kept_generic
    (loadUrl : String → Except String Image)
    (loadBuf : List ℕ → Except String Image)
    (detect : Image → Except String (List Detection))
    (req : VerifyRequest) :
    ((verifyHandler loadUrl loadBuf detect req).response.status = 500 →
      (verifyHandler loadUrl loadBuf detect req).response.body =
        .msg "Face verification failed") ∧
    (∀ url buf e, req = ⟨some url, some buf⟩ → loadUrl url = .error e →
      (verifyHandler loadUrl loadBuf detect req).response =
        ⟨500, .msg "Face verification failed"⟩) ∧
    (∀ url buf refImg e, req = ⟨some url, some buf⟩ →
      loadUrl url = .ok refImg →
      ¬(refImg.width < MIN_IMAGE_SIZE ∨ refImg.height < MIN_IMAGE_SIZE) →
      detect refImg = .error e →
      (verifyHandler loadUrl loadBuf detect req).response =
        ⟨500, .msg "Face verification failed"⟩) ∧
    (∀ url buf refImg rd n e, req = ⟨some url, some buf⟩ →
      loadUrl url = .ok refImg →
      extractFaceData detect refImg = (.ok (.success rd), n) →
      loadBuf buf = .error e →
      (verifyHandler loadUrl loadBuf detect req).response =
        ⟨500, .msg "Face verification failed"⟩) ∧
    (∀ url buf refImg rd n selfieImg e, req = ⟨some url, some buf⟩ →
      loadUrl url = .ok refImg →
      extractFaceData detect refImg = (.ok (.success rd), n) →
      loadBuf buf = .ok selfieImg →
      ¬(selfieImg.width < MIN_IMAGE_SIZE ∨ selfieImg.height < MIN_IMAGE_SIZE) →
      detect selfieImg = .error e →
      (verifyHandler loadUrl loadBuf detect req).response =
        ⟨500, .msg "Face verification failed"⟩) ∧
    ((verifyHandler loadUrl loadBuf detect req).response.status = 400 →
      (verifyHandler loadUrl loadBuf detect req).response.body =
        .msg "referenceImageUrl and selfie file required" ∨
      ∃ m, m ∈ userMsgs ∧
        ((verifyHandler loadUrl loadBuf detect req).response.body =
            .msg ("Reference image error: " ++ m) ∨
          (verifyHandler loadUrl loadBuf detect req).response.body =
            .msg ("Selfie error: " ++ m))) := by
  refine ⟨?_, ?_, ?_, ?_, ?_, ?_⟩
  · intro h5
    rcases verifyHandler_response_cases loadUrl loadBuf detect req with
      ⟨r, hr⟩ | hr | ⟨m, hm, hr | hr⟩ | hr <;> rw [hr] <;> rw [hr] at h5 <;>
      simp_all
  · rintro url buf e rfl hu
    simp [verifyHandler, hu]
  · rintro url buf refImg e rfl hu hg hd
    have hx := extractFaceData_detect_error detect refImg e hg hd
    simp [verifyHandler, hu, hx]
  · rintro url buf refImg rd n e rfl hu hx hb
    simp [verifyHandler, hu, hx, hb]
  · rintro url buf refImg rd n selfieImg e rfl hu hx hb hg hd
    have hs := extractFaceData_detect_error detect selfieImg e hg hd
    simp [verifyHandler, hu, hx, hb, hs]
  · intro h4
    rcases verifyHandler_response_cases loadUrl loadBuf detect req with
      ⟨r, hr⟩ | hr | ⟨m, hm, hr | hr⟩ | hr
    · rw [hr] at h4
      simp at h4
    · left
      rw [hr]
    · right
      exact ⟨m, hm, Or.inl (by rw [hr])⟩
    · right
      exact ⟨m, hm, Or.inr (by rw [hr])⟩
    · rw [hr] at h4
      simp at h4

theorem infra_faults_kept_generic_witness :
    ((fun _ : String => (.error "ECONNREFUSED" : Except String Image)) "u" =
        .error "ECONNREFUSED" ∧
      (verifyHandler (fun _ => .error "ECONNREFUSED") (fun _ => .ok ⟨400, 400⟩)
          (fun _ => .ok []) ⟨some "u", some []⟩).response =
        ⟨500, .msg "Face verification failed"⟩) ∧
    (¬(((⟨400, 400⟩ : Image)).width < MIN_IMAGE_SIZE ∨
        ((⟨400, 400⟩ : Image)).height < MIN_IMAGE_SIZE) ∧
      (verifyHandler (fun _ => .ok ⟨400, 400⟩) (fun _ => .ok ⟨400, 400⟩)
          (fun _ => .error "model not loaded") ⟨some "u", some []⟩).response =
        ⟨500, .msg "Face verification failed"⟩) ∧
    (extractFaceData (fun _ => .ok [⟨⟨0, 0, 130, 130⟩, [1]⟩]) ⟨400, 400⟩ =
        (.ok (.success [1]), 1) ∧
      (verifyHandler (fun _ => .ok ⟨400, 400⟩)
          (fun _ => .error "undecodable image")
          (fun _ => .ok [⟨⟨0, 0, 130, 130⟩, [1]⟩]) ⟨some "u", some []⟩).response =
        ⟨500, .msg "Face verification failed"⟩) ∧
    ((fun img : Image =>
        if img.width = 400 then
          (.ok [⟨⟨0, 0, 130, 130⟩, [1]⟩] : Except String (List Detection))
        else .error "model failure") ⟨500, 500⟩ = .error "model failure" ∧
      (verifyHandler (fun _ => .ok ⟨400, 400⟩) (fun _ => .ok ⟨500, 500⟩)
          (fun img => if img.width = 400 then .ok [⟨⟨0, 0, 130, 130⟩, [1]⟩]
            else .error "model failure") ⟨some "u", some []⟩).response =
        ⟨500, .msg "Face verification failed"⟩) := by
  have hg4 : ¬(((⟨400, 400⟩ : Image)).width < MIN_IMAGE_SIZE ∨
      ((⟨400, 400⟩ : Image)).height < MIN_IMAGE_SIZE) := by
    norm_num [MIN_IMAGE_SIZE]
  have hg5 : ¬(((⟨500, 500⟩ : Image)).width < MIN_IMAGE_SIZE ∨
      ((⟨500, 500⟩ : Image)).height < MIN_IMAGE_SIZE) := by
    norm_num [MIN_IMAGE_SIZE]
  have hxOk : extractFaceData
      (fun _ => (.ok [⟨⟨0, 0, 130, 130⟩, [1]⟩] : Except String (List Detection)))
      ⟨400, 400⟩ = (.ok (.success [1]), 1) := by
    norm_num [extractFaceData, MIN_IMAGE_SIZE, enforceSingleFace, MIN_FACE_WIDTH]
  have hxSplit : extractFaceData
      (fun img : Image => if img.width = 400 then
        (.ok [⟨⟨0, 0, 130, 130⟩, [1]⟩] : Except String (List Detection))
        else .error "model failure")
      ⟨400, 400⟩ = (.ok (.success [1]), 1) := by
    norm_num [extractFaceData, MIN_IMAGE_SIZE, enforceSingleFace, MIN_FACE_WIDTH]
  refine ⟨⟨rfl, ?_⟩, ⟨hg4, ?_⟩, ⟨hxOk, ?_⟩, ⟨rfl, ?_⟩⟩
  · exact (infra_faults_kept_generic (fun _ => .error "ECONNREFUSED")
      (fun _ => .ok ⟨400, 400⟩) (fun _ => .ok [])
      ⟨some "u", some []⟩).2.1 "u" [] "ECONNREFUSED" rfl rfl
  · exact (infra_faults_kept_generic (fun _ => .ok ⟨400, 400⟩)
      (fun _ => .ok ⟨400, 400⟩) (fun _ => .error "model not loaded")
      ⟨some "u", some []⟩).2.2.1 "u" [] ⟨400, 400⟩ "model not loaded"
      rfl rfl hg4 rfl
  · exact (infra_faults_kept_generic (fun _ => .ok ⟨400, 400⟩)
      (fun _ => .error "undecodable image")
      (fun _ => .ok [⟨⟨0, 0, 130, 130⟩, [1]⟩])
      ⟨some "u", some []⟩).2.2.2.1 "u" [] ⟨400, 400⟩ [1] 1 "undecodable image"
      rfl rfl hxOk rfl
  · exact (infra_faults_kept_generic (fun _ => .ok ⟨400, 400⟩)
      (fun _ => .ok ⟨500, 500⟩)
      (fun img => if img.width = 400 then .ok [⟨⟨0, 0, 130, 130⟩, [1]⟩]
        else .error "model failure")
      ⟨some "u", some []⟩).2.2.2.2.1 "u" [] ⟨400, 400⟩ [1] 1 ⟨500, 500⟩
      "model failure" rfl rfl hxSplit rfl hg5 rfl

/-! ### C9 -/

/-- C9 fails on the code.  `loadModels` guards only with the boolean
`modelsLoaded`, which is set *after* the awaited `loadFromDisk` calls
complete.  Under the interleaving in which the second caller reaches the
`if (modelsLoaded) return;` check while the first caller is still awaiting
the disk loads (schedule caller 1, caller 2, caller 1, caller 2), both
callers start the load sequence: `loadsStarted = 2`, a duplicate in-flight
load instead of the single-flight wait the spec requires.  When the second
caller only arrives after the first completed (schedule caller 1, caller 1,
caller 2), the flag works and only one load is started. -/
theorem loadModels_concurrent_duplicate_load :
    (runSched initLoaderSys [true, false, true, false]).load.loadsStarted = 2 ∧
    (runSched initLoaderSys [true, false, true, false]).c1 = .finished ∧
    (runSched initLoaderSys [true, false, true, false]).c2 = .finished ∧
    (runSched initLoaderSys [true, false, true, false]).load.modelsLoaded = true ∧
    (runSched initLoaderSys [true, true, false]).load.loadsStarted = 1 := by
  decide

end FaceVerify
